import Mathlib

/-!
Verification development for the versioned, access-controlled content store
(sanitizer, RBAC engine, audit logger, version manager, content service).

The definitions below are a shallow embedding of the TypeScript source:
* `src/lib/cms/sanitizer.ts` — dangerous-pattern matching, removal, HTML
  escaping, text/title sanitization, object sanitization;
* `src/lib/cms/rbac.ts` — role/permission table and `makeAccessDecision`;
* `src/lib/cms/audit-logger.ts` — `AuditLogger.log` with value truncation
  and swallowed append failures;
* `src/lib/cms/version-manager.ts` — `VersionManager.saveContent` and
  `VersionManager.rollbackToVersion`;
* `src/lib/cms/content-service.ts` — `ContentService.saveContent`.

JavaScript strings are modelled as `List Char` (ASCII inputs); machine
concerns such as `Date.now()` and `uuidv4()` are passed in as explicit
parameters.  The module-level regular expressions in `sanitizer.ts` carry
the `g` flag, so `RegExp.prototype.test` advances each regex's `lastIndex`;
that hidden state is modelled explicitly as a `List Nat` of lastIndex
values threaded through the checks.
-/

namespace ChariotekCms

/-! ### Character classes (JS semantics restricted to ASCII) -/

/-- Lowercase an ASCII character, for the `i` regex flag. -/
def lowAscii (c : Char) : Char :=
  if 'A' ≤ c && c ≤ 'Z' then Char.ofNat (c.toNat + 32) else c

/-- The regex `\w` class: `[A-Za-z0-9_]`. -/
def isWordChar (c : Char) : Bool :=
  ('a' ≤ c && c ≤ 'z') || ('A' ≤ c && c ≤ 'Z') || ('0' ≤ c && c ≤ '9') || c = '_'

/-- The regex `\s` class and the characters removed by `String.trim`
(ASCII part): space, tab, newline, carriage return, vertical tab, form feed. -/
def isJsSpace (c : Char) : Bool :=
  c = ' ' || c = '\t' || c = '\n' || c = '\r' || c = Char.ofNat 11 || c = Char.ofNat 12

/-- The class `[\r\n]` used by `sanitizeTitle`. -/
def isCRLF (c : Char) : Bool := c = '\r' || c = '\n'

/-- The class `[\t\f\v]` used by `sanitizeText`. -/
def isTFV (c : Char) : Bool := c = '\t' || c = Char.ofNat 12 || c = Char.ofNat 11

/-- A literal space character, for the regex `/ +/`. -/
def isSpaceChar (c : Char) : Bool := c = ' '

/-! ### Matching primitives -/

/-- Case-insensitive literal match at the head of `s`; returns the remainder. -/
def litCI : List Char → List Char → Option (List Char)
  | [], s => some s
  | _ :: _, [] => none
  | p :: ps, c :: cs => if lowAscii p = lowAscii c then litCI ps cs else none

/-- Length of the run of characters satisfying `p`, plus the remainder. -/
def countWhile (p : Char → Bool) : List Char → Nat × List Char
  | [] => (0, [])
  | c :: rest =>
    if p c then
      let r := countWhile p rest
      (r.1 + 1, r.2)
    else (0, c :: rest)

/-- Word-boundary test used for `\b` after a word character: the next
character must not be a word character (or the string ends). -/
def noWordNext : List Char → Bool
  | [] => true
  | c :: _ => !isWordChar c

/-- A matcher tries a pattern at the head of a string and returns the number
of characters consumed by the (deterministic, JS-greedy) match. -/
abbrev Matcher := List Char → Option Nat

/-- Position just past the first case-insensitive occurrence of the literal
closing tag `"</script>"`, searching from the head. -/
def findCloseScript : List Char → Option Nat
  | [] => none
  | c :: rest =>
    match litCI ("</script>").data (c :: rest) with
    | some _ => some 9
    | none => (findCloseScript rest).map (fun n => n + 1)

/-- The pattern `<script\b[^<]*(?:(?!<\/script>)<[^<]*)*<\/script>` (gi):
a `<script` opener with a word boundary through the first `</script>`. -/
def mScript : Matcher := fun s =>
  match litCI ("<script").data s with
  | some rest =>
    if noWordNext rest then (findCloseScript rest).map (fun n => 7 + n) else none
  | none => none

/-- A plain case-insensitive literal pattern such as `javascript:` (gi). -/
def mLitCI (pat : String) : Matcher := fun s =>
  (litCI pat.data s).map (fun _ => pat.length)

/-- A case-insensitive tag opener with a trailing word boundary, such as
`<iframe\b` (gi). -/
def mTagCI (pat : String) : Matcher := fun s =>
  match litCI pat.data s with
  | some rest => if noWordNext rest then some pat.length else none
  | none => none

/-- A call-like pattern `name\s*\(` (gi), such as `eval\s*\(`. -/
def mCallCI (pat : String) : Matcher := fun s =>
  match litCI pat.data s with
  | some rest =>
    let sp := countWhile isJsSpace rest
    match sp.2 with
    | c :: _ => if c = '(' then some (pat.length + sp.1 + 1) else none
    | [] => none
  | none => none

/-- The pattern `on\w+\s*=` (gi) for inline event-handler attributes. -/
def mOnAttr : Matcher := fun s =>
  match litCI ("on").data s with
  | some rest =>
    let w := countWhile isWordChar rest
    if w.1 = 0 then none
    else
      let sp := countWhile isJsSpace w.2
      match sp.2 with
      | c :: _ => if c = '=' then some (2 + w.1 + sp.1 + 1) else none
      | [] => none
  | none => none

/-- The pattern `data:\s*text\/html` (gi). -/
def mDataHtml : Matcher := fun s =>
  match litCI ("data:").data s with
  | some rest =>
    let sp := countWhile isJsSpace rest
    (litCI ("text/html").data sp.2).map (fun _ => 5 + sp.1 + 9)
  | none => none

/-- First alternative of an alternation that matches at the head of `s`. -/
def firstAlt : List String → List Char → Option Nat
  | [], _ => none
  | a :: rest, s =>
    match litCI a.data s with
    | some _ => some a.length
    | none => firstAlt rest s

/-- A pattern `base(alt1|alt2|...)` (gi), such as
`document\.(cookie|write|location)`. -/
def mDotAlt (base : String) (alts : List String) : Matcher := fun s =>
  match litCI base.data s with
  | some rest => (firstAlt alts rest).map (fun n => base.length + n)
  | none => none

/-- The `DANGEROUS_PATTERNS` array of `sanitizer.ts`, in source order. -/
def dangerousMatchers : List Matcher :=
  [mScript,
   mLitCI ("javascript:"),
   mOnAttr,
   mDataHtml,
   mLitCI ("vbscript:"),
   mCallCI ("expression"),
   mTagCI ("<iframe"),
   mTagCI ("<object"),
   mTagCI ("<embed"),
   mTagCI ("<form"),
   mTagCI ("<input"),
   mTagCI ("<button"),
   mDotAlt ("document.") ["cookie", "write", "location"],
   mDotAlt ("window.") ["location", "open"],
   mCallCI ("eval"),
   mCallCI ("function"),
   mCallCI ("setTimeout"),
   mCallCI ("setInterval")]

/-! ### Regex search, stateful `test`, and global replace -/

/-- Leftmost match of `m` in `s`: start position and length. -/
def searchMatch (m : Matcher) : List Char → Option (Nat × Nat)
  | [] =>
    match m [] with
    | some n => some (0, n)
    | none => none
  | c :: rest =>
    match m (c :: rest) with
    | some n => some (0, n)
    | none => (searchMatch m rest).map (fun p => (p.1 + 1, p.2))

/-- `RegExp.prototype.test` for a `g`-flagged regex: search from `lastIndex`;
on success advance `lastIndex` past the match, on failure reset it to 0. -/
def testG (m : Matcher) (s : List Char) (lastIndex : Nat) : Bool × Nat :=
  match searchMatch m (s.drop lastIndex) with
  | some p => (true, lastIndex + p.1 + p.2)
  | none => (false, 0)

/-- `DANGEROUS_PATTERNS.some(pattern => pattern.test(input))` with the
per-regex `lastIndex` state threaded explicitly.  `Array.prototype.some`
short-circuits, so regexes after the first hit keep their old state. -/
def someTest : List Matcher → List Nat → List Char → Bool × List Nat
  | [], _, _ => (false, [])
  | _ :: _, [], _ => (false, [])
  | m :: ms, li :: lis, s =>
    let r := testG m s li
    if r.1 then (true, r.2 :: lis)
    else
      let rest := someTest ms lis s
      (rest.1, r.2 :: rest.2)

/-- Fresh `lastIndex` state for the 18 dangerous patterns. -/
def initRegexState : List Nat := List.replicate 18 0

/-- Stateful `containsDangerousContent` on the explicit regex state. -/
def containsDangerousContentS (st : List Nat) (s : String) : Bool × List Nat :=
  someTest dangerousMatchers st s.data

/-- The result of `containsDangerousContent` when every pattern's
`lastIndex` is 0 (for example on first use after module load). -/
def containsDangerousContent (s : String) : Bool :=
  (containsDangerousContentS initRegexState s).1

/-- Global regex replacement by the empty string, with fuel; each step
either keeps one character or drops a (nonempty) match. -/
def replAux (m : Matcher) : Nat → List Char → List Char
  | 0, s => s
  | _ + 1, [] => []
  | fuel + 1, c :: rest =>
    match m (c :: rest) with
    | some n =>
      if n = 0 then c :: replAux m fuel rest
      else replAux m fuel (List.drop (n - 1) rest)
    | none => c :: replAux m fuel rest

/-- `input.replace(pattern, '')` for a global pattern.  (`Symbol.replace`
resets `lastIndex` to 0 before and after, so no state is threaded.) -/
def replaceAllM (m : Matcher) (s : List Char) : List Char := replAux m s.length s

/-- `removeDangerousContent`: apply every pattern's global replacement in
source order. -/
def removeDangerousContentL (s : List Char) : List Char :=
  dangerousMatchers.foldl (fun acc m => replaceAllM m acc) s

/-- String-level wrapper for `removeDangerousContent`. -/
def removeDangerousContent (s : String) : String :=
  String.mk (removeDangerousContentL s.data)

/-! ### HTML escaping, trimming and whitespace collapsing -/

/-- Entity expansion of one character, per the `htmlEntities` table of
`escapeHtml` (the characters matched by the class in that replace call). -/
def escChar (c : Char) : List Char :=
  if c = '&' then ("&amp;").data
  else if c = '<' then ("&lt;").data
  else if c = '>' then ("&gt;").data
  else if c = '"' then ("&quot;").data
  else if c = Char.ofNat 39 then ("&#x27;").data
  else if c = '/' then ("&#x2F;").data
  else if c = Char.ofNat 96 then ("&#x60;").data
  else if c = '=' then ("&#x3D;").data
  else [c]

/-- List-level `escapeHtml`. -/
def escapeHtmlL (s : List Char) : List Char :=
  s.foldr (fun c acc => escChar c ++ acc) []

/-- Escape HTML entities to prevent XSS (`escapeHtml` in `sanitizer.ts`). -/
def escapeHtml (s : String) : String := String.mk (escapeHtmlL s.data)

/-- Collapse each maximal run of characters satisfying `p` into one space;
the flag records whether the previous character was inside such a run. -/
def collapseAux (p : Char → Bool) : Bool → List Char → List Char
  | _, [] => []
  | inRun, c :: rest =>
    if p c then
      if inRun then collapseAux p true rest else ' ' :: collapseAux p true rest
    else c :: collapseAux p false rest

/-- `input.replace(classPlusRegex, ' ')`: each run of the class becomes one
space. -/
def collapseRuns (p : Char → Bool) (s : List Char) : List Char :=
  collapseAux p false s

/-- JS `String.prototype.trim` on ASCII input. -/
def jsTrimL (s : List Char) : List Char :=
  ((s.dropWhile isJsSpace).reverse.dropWhile isJsSpace).reverse

/-- Enforce a length limit: `if (result.length > max) result =
result.substring(0, max)`. -/
def capLen (n : Nat) (s : List Char) : List Char :=
  if n < s.length then s.take n else s

/-! ### Sanitization functions (`sanitizer.ts`)

`ContentLimits.TITLE = 200` and `ContentLimits.DESCRIPTION = 2000` are the
length caps used by `sanitizeTitle` and (by default) `sanitizeText`. -/

/-- The `ContentLimits.TITLE` constant. -/
def titleLimit : Nat := 200

/-- The `ContentLimits.DESCRIPTION` constant. -/
def descriptionLimit : Nat := 2000

/-- List-level `sanitizeTitle`: trim, collapse `[\r\n]+` runs to a space,
collapse `\s+` runs to a space, strip dangerous patterns, escape HTML and
cap the length.  The empty string is falsy in JS, hence returned as-is. -/
def sanitizeTitleL (s : List Char) : List Char :=
  if s = [] then []
  else
    capLen titleLimit
      (escapeHtmlL
        (removeDangerousContentL
          (collapseRuns isJsSpace (collapseRuns isCRLF (jsTrimL s)))))

/-- Sanitize a title (single line, no HTML): `sanitizeTitle` in
`sanitizer.ts`. -/
def sanitizeTitle (s : String) : String := String.mk (sanitizeTitleL s.data)

/-- List-level `sanitizeText`: trim, strip dangerous patterns, collapse
`[\t\f\v]+` runs to a space, collapse ` +` runs to a space, cap length. -/
def sanitizeTextL (maxLength : Nat) (s : List Char) : List Char :=
  if s = [] then []
  else
    capLen maxLength
      (collapseRuns isSpaceChar
        (collapseRuns isTFV (removeDangerousContentL (jsTrimL s))))

/-- Sanitize plain text (`sanitizeText` with the default length limit). -/
def sanitizeText (s : String) : String :=
  String.mk (sanitizeTextL descriptionLimit s.data)

/-! ### Content model and `sanitizeObject`

Content payloads (`Record<string, unknown>`) are modelled as flat records
with string values, sufficient for the content shapes the claims exercise.
`sanitizeObject` with no field rules applies the default `text` rule to
every string value. -/

/-- A content object: ordered string fields. -/
abbrev Content := List (String × String)

/-- `sanitizeObject(content)` with no field rules: every string value gets
`sanitizeText`. -/
def sanitizeObject (c : Content) : Content :=
  c.map (fun kv => (kv.1, sanitizeText kv.2))

/-- One JSON string escape step of `JSON.stringify`. -/
def jsonEscChar (c : Char) : List Char :=
  if c = '"' then ('\\' :: ['"'])
  else if c = '\\' then ('\\' :: ['\\'])
  else if c = '\n' then ('\\' :: ['n'])
  else if c = '\r' then ('\\' :: ['r'])
  else if c = '\t' then ('\\' :: ['t'])
  else [c]

/-- A JSON string literal for `s` (quotes plus escapes). -/
def jsonQuote (s : String) : String :=
  String.mk ('"' :: s.data.foldr (fun c acc => jsonEscChar c ++ acc) ['"'])

/-- `JSON.stringify` of a flat string-valued object, preserving field
order. -/
def jsonStringify (c : Content) : String :=
  "\x7b" ++ String.intercalate (",") (c.map (fun kv => jsonQuote kv.1 ++ ":" ++ jsonQuote kv.2)) ++ "\x7d"

/-- State effect of `sanitizeObject` on the shared regex states: each
non-empty string value passes through `removeDangerousContent`, whose
global `replace` calls reset every pattern's `lastIndex` to 0; empty
strings return early and touch nothing. -/
def sanitizeObjectS (rs : List Nat) (c : Content) : Content × List Nat :=
  (sanitizeObject c, if c.any (fun kv => kv.2 ≠ "") then initRegexState else rs)

/-! ### RBAC engine (`types.ts` role table and `rbac.ts`)

Roles are modelled as strings so that invalid roles are representable, as
`makeAccessDecision` requires. -/

/-- `RolePermissions` from `types.ts`: the static role → permission table.
`super_admin` holds `Object.values(Permission)` in declaration order. -/
def rolePermissionsTable (role : String) : Option (List String) :=
  if role = "super_admin" then
    some ["content:read", "content:create", "content:update", "content:delete",
          "content:publish", "content:rollback", "admin:read", "admin:create",
          "admin:update", "admin:delete", "audit:read", "version:read",
          "version:restore"]
  else if role = "admin" then
    some ["content:read", "content:create", "content:update", "content:delete",
          "content:publish", "content:rollback", "admin:read", "audit:read",
          "version:read", "version:restore"]
  else if role = "editor" then
    some ["content:read", "content:create", "content:update", "version:read"]
  else none

/-- `hasPermission(role, permission)`: table lookup; unknown role gives
`false` (`permissions?.includes(permission) ?? false`). -/
def hasPermission (role permission : String) : Bool :=
  match rolePermissionsTable role with
  | some ps => ps.contains permission
  | none => false

/-- `isValidRole`: membership in `Object.values(UserRole)`. -/
def isValidRole (role : String) : Bool :=
  role = "super_admin" || role = "admin" || role = "editor"

/-- `AdminUser` (the fields the access-control path reads). -/
structure AdminUser where
  id : String
  email : String
  role : String
  isActive : Bool
deriving DecidableEq, Repr

/-- The structured decision returned by `makeAccessDecision`. -/
structure AccessDecision where
  allowed : Bool
  reason : Option String := none
  requiredPermission : Option String := none
deriving DecidableEq, Repr

/-- `makeAccessDecision(user, requiredPermission)` from `rbac.ts`: ordered
checks — user present, `isActive`, role validity, permission membership. -/
def makeAccessDecision (user : Option AdminUser) (requiredPermission : String) :
    AccessDecision :=
  match user with
  | none => { allowed := false, reason := some ("User not authenticated") }
  | some u =>
    if !u.isActive then
      { allowed := false, reason := some ("User account is deactivated") }
    else if !isValidRole u.role then
      { allowed := false, reason := some ("Invalid user role") }
    else if !hasPermission u.role requiredPermission then
      { allowed := false
        reason := some ("Missing required permission: " ++ requiredPermission)
        requiredPermission := some requiredPermission }
    else { allowed := true }

/-! ### Audit logger (`audit-logger.ts`)

`Date.now()` and `uuidv4()` are passed in as explicit parameters, and the
availability of the underlying `addDoc` append is modelled by a Boolean
`appendFails` flag. -/

/-- A `previousValue`/`newValue` after `truncateValue`: either the full
object or the truncation indicator. -/
inductive StoredValue where
  | full (c : Content)
  | truncated (originalSize : Nat) (preview : String)
deriving DecidableEq, Repr

/-- `MAX_VALUE_SIZE` from `audit-logger.ts`. -/
def maxValueSize : Nat := 10000

/-- `truncateValue`: keep the object if its JSON serialization fits in
`MAX_VALUE_SIZE` characters, otherwise store the truncation indicator with
the original size and a 500-character preview. -/
def truncateValue (v : Option Content) : Option StoredValue :=
  v.map (fun c =>
    let s := jsonStringify c
    if s.length ≤ maxValueSize then StoredValue.full c
    else StoredValue.truncated s.length (String.mk (s.data.take 500) ++ "..."))

/-- The input accepted by `AuditLogger.log`.  Rollback metadata
`{fromVersion, toVersion}` is modelled as string pairs. -/
structure AuditLogInput where
  action : String
  userId : String
  userEmail : String
  userRole : String
  resourceType : Option String := none
  resourceId : Option String := none
  resourcePath : Option String := none
  previousValue : Option Content := none
  newValue : Option Content := none
  success : Bool
  errorMessage : Option String := none
  metadata : Option (List (String × String)) := none
deriving DecidableEq, Repr

/-- A stored audit record as constructed by `AuditLogger.log`. -/
structure AuditLogEntry where
  id : String
  action : String
  userId : String
  userEmail : String
  userRole : String
  timestamp : Nat
  resourceType : Option String := none
  resourceId : Option String := none
  resourcePath : Option String := none
  previousValue : Option StoredValue := none
  newValue : Option StoredValue := none
  success : Bool
  errorMessage : Option String := none
  metadata : Option (List (String × String)) := none
deriving DecidableEq, Repr

/-- The immutable record built inside `AuditLogger.log` before the append. -/
def mkAuditLogEntry (uuid : String) (now : Nat) (i : AuditLogInput) : AuditLogEntry :=
  { id := uuid
    action := i.action
    userId := i.userId
    userEmail := i.userEmail
    userRole := i.userRole
    timestamp := now
    resourceType := i.resourceType
    resourceId := i.resourceId
    resourcePath := i.resourcePath
    previousValue := truncateValue i.previousValue
    newValue := truncateValue i.newValue
    success := i.success
    errorMessage := i.errorMessage
    metadata := i.metadata }

namespace AuditLogger

/-- The underlying `addDoc` append to the `audit_logs` collection, which
may fail (network, permissions); failure is a thrown error. -/
def addDocAudit (appendFails : Bool) (logs : List AuditLogEntry)
    (e : AuditLogEntry) : Except String (String × List AuditLogEntry) :=
  if appendFails then Except.error ("Audit store unavailable")
  else Except.ok (e.id, logs ++ [e])

/-- `AuditLogger.log`: build the record, attempt the append, and swallow
any append failure (returning the empty id and leaving the log unchanged)
so audit unavailability never breaks the main operation. -/
def log (appendFails : Bool) (now : Nat) (uuid : String)
    (logs : List AuditLogEntry) (i : AuditLogInput) : String × List AuditLogEntry :=
  match addDocAudit appendFails logs (mkAuditLogEntry uuid now i) with
  | Except.ok r => r
  | Except.error _ => ("", logs)

end AuditLogger

/-! ### Version manager (`version-manager.ts`) -/

/-- `ContentStatus` from `types.ts`. -/
inductive CStatus where
  | draft
  | published
  | archived
deriving DecidableEq, Repr

/-- The `_meta` block of a `VersionedDocument`. -/
structure DocMeta where
  version : Nat
  status : CStatus
  createdAt : Nat
  createdBy : String
  updatedAt : Nat
  updatedBy : String
  publishedAt : Option Nat := none
  publishedBy : Option String := none
deriving DecidableEq, Repr

/-- The live record at a document path (`VersionedDocument<T>`). -/
structure VersionedDoc where
  content : Content
  meta : DocMeta
deriving DecidableEq, Repr

/-- A `ContentVersion` snapshot row in the `_versions` subcollection. -/
structure ContentVersion where
  versionId : String
  version : Nat
  contentSnapshot : Content
  createdAt : Nat
  createdBy : String
  createdByEmail : Option String := none
  changeDescription : Option String := none
  isRollback : Bool := false
  rolledBackFrom : Option Nat := none
deriving DecidableEq, Repr

/-- The store state for one document path: the live document (if any) and
its append-only snapshot subcollection. -/
structure VMState where
  live : Option VersionedDoc
  snapshots : List ContentVersion
deriving DecidableEq, Repr

/-- A path with no document and no snapshots. -/
def vmEmpty : VMState := { live := none, snapshots := [] }

/-- `currentData?._meta?.version ?? 0`. -/
def liveVersion (st : VMState) : Nat :=
  match st.live with
  | some d => d.meta.version
  | none => 0

/-- `OperationResult<T>` from `types.ts`. -/
structure OperationResult (α : Type) where
  success : Bool
  data : Option α := none
  error : Option String := none
  errorCode : Option String := none
deriving DecidableEq, Repr

/-- The success payload of `VersionManager.saveContent`. -/
structure SaveData where
  version : Nat
deriving DecidableEq, Repr

/-- The success payload of `VersionManager.rollbackToVersion`. -/
structure RollbackData where
  version : Nat
  restoredVersion : Nat
deriving DecidableEq, Repr

/-- `SaveContentOptions` from `version-manager.ts`. -/
structure SaveOpts where
  userId : String
  userEmail : String
  changeDescription : Option String := none
  expectedVersion : Option Nat := none
  publish : Bool := false
deriving DecidableEq, Repr

/-- The message of the error thrown by the optimistic-lock check. -/
def conflictMsg (expected current : Nat) : String :=
  "Version conflict: expected version " ++ toString expected ++
  ", but current version is " ++ toString current ++
  ". Please refresh and try again."

namespace VersionManager

/-- The committed part of `VersionManager.saveContent`: build the new live
document, replace it transactionally, then (outside the transaction) append
the pre-image snapshot when a previous document existed.  The `|| now`,
`|| options.userId` and `|| ContentStatus.DRAFT` fallbacks are JS truthiness
checks, hence the explicit falsy tests on 0 and the empty string.
`cleanupOldVersions` only logs candidates and deletes nothing, so it has no
state effect. -/
def saveCommit (st : VMState) (content : Content) (o : SaveOpts)
    (now : Nat) (uuid : String) : OperationResult SaveData × VMState :=
  let currentVersion := liveVersion st
  let newVersion := currentVersion + 1
  let newMeta : DocMeta :=
    { version := newVersion
      status :=
        if o.publish then CStatus.published
        else match st.live with
          | some d => d.meta.status
          | none => CStatus.draft
      createdAt :=
        match st.live with
        | some d => if d.meta.createdAt = 0 then now else d.meta.createdAt
        | none => now
      createdBy :=
        match st.live with
        | some d => if d.meta.createdBy = "" then o.userId else d.meta.createdBy
        | none => o.userId
      updatedAt := now
      updatedBy := o.userId
      publishedAt := if o.publish then some now else st.live.bind (fun d => d.meta.publishedAt)
      publishedBy := if o.publish then some o.userId else st.live.bind (fun d => d.meta.publishedBy) }
  let snaps :=
    match st.live with
    | some d =>
      st.snapshots ++
        [{ versionId := uuid
           version := currentVersion
           contentSnapshot := d.content
           createdAt := now
           createdBy := o.userId
           createdByEmail := some o.userEmail
           changeDescription := o.changeDescription
           isRollback := false
           rolledBackFrom := none }]
    | none => st.snapshots
  ({ success := true, data := some { version := newVersion } },
   { live := some { content := content, meta := newMeta }, snapshots := snaps })

/-- `VersionManager.saveContent`: optimistic-lock check, then commit.  A
conflict throws a plain `Error`, which the surrounding catch turns into
`{success: false, error: message, errorCode: error.code}`; a plain `Error`
has no `code` property, so `errorCode` is absent. -/
def saveContent (st : VMState) (content : Content) (o : SaveOpts)
    (now : Nat) (uuid : String) : OperationResult SaveData × VMState :=
  if o.expectedVersion.any (fun e => e ≠ liveVersion st) then
    ({ success := false
       error := some (conflictMsg (o.expectedVersion.getD 0) (liveVersion st))
       errorCode := none }, st)
  else saveCommit st content o now uuid

/-- `VersionManager.getVersion`: the snapshot row whose `version` field
equals `v` (Firestore `where('version','==',v)` with `limit(1)`). -/
def getVersion (snaps : List ContentVersion) (v : Nat) : Option ContentVersion :=
  snaps.find? (fun s => s.version == v)

/-- `RollbackOptions` from `version-manager.ts`. -/
structure RollbackOpts where
  userId : String
  userEmail : String
  targetVersion : Nat
deriving DecidableEq, Repr

/-- `VersionManager.rollbackToVersion`: fetch the target snapshot
(`VERSION_NOT_FOUND` if absent), transactionally replace the live content
with the snapshot content bumping only `version`, `updatedAt` and
`updatedBy`, then append a rollback-flagged snapshot of the pre-rollback
content and emit a `content_rollback` audit entry.  A missing live document
throws a plain `Error`, caught into a failure result without a code. -/
def rollbackToVersion (st : VMState) (audit : List AuditLogEntry)
    (auditFails : Bool) (contentType docPath : String) (o : RollbackOpts)
    (userRole : String) (now : Nat) (uuid auditUuid : String) :
    OperationResult RollbackData × VMState × List AuditLogEntry :=
  match getVersion st.snapshots o.targetVersion with
  | none =>
    ({ success := false
       error := some ("Version " ++ toString o.targetVersion ++ " not found")
       errorCode := some ("VERSION_NOT_FOUND") }, st, audit)
  | some target =>
    match st.live with
    | none =>
      ({ success := false
         error := some ("Document does not exist")
         errorCode := none }, st, audit)
    | some d =>
      let currentVersion := d.meta.version
      let newVersion := currentVersion + 1
      let newDoc : VersionedDoc :=
        { content := target.contentSnapshot
          meta := { d.meta with
                    version := newVersion
                    updatedAt := now
                    updatedBy := o.userId } }
      let snaps :=
        st.snapshots ++
          [{ versionId := uuid
             version := currentVersion
             contentSnapshot := d.content
             createdAt := now
             createdBy := o.userId
             createdByEmail := some o.userEmail
             changeDescription := some ("Rollback to version " ++ toString o.targetVersion)
             isRollback := true
             rolledBackFrom := some o.targetVersion }]
      let audit2 :=
        (AuditLogger.log auditFails now auditUuid audit
          { action := "content_rollback"
            userId := o.userId
            userEmail := o.userEmail
            userRole := userRole
            resourceType := some contentType
            resourceId := some docPath
            resourcePath := some docPath
            previousValue := some d.content
            newValue := some target.contentSnapshot
            success := true
            metadata := some [("fromVersion", toString currentVersion),
                              ("toVersion", toString o.targetVersion)] }).2
      ({ success := true
         data := some { version := newVersion, restoredVersion := o.targetVersion } },
       { live := some newDoc, snapshots := snaps }, audit2)

end VersionManager

/-! ### Content service (`content-service.ts`)

State visible to `ContentService.saveContent`: the document path's store
state, the audit collection, and the shared regex `lastIndex` states.  The
synchronous throw of `ensurePermission` is modelled as an explicit
`thrown` outcome; everything after it returns an `OperationResult`.
`VersionManager.saveContent` and `AuditLogger.log` both catch internally,
so the catch branch of `ContentService.saveContent` is unreachable and the
service function is total. -/

/-- `SaveOptions` of `content-service.ts`. -/
structure SaveSvcOpts where
  user : AdminUser
  changeDescription : Option String := none
  expectedVersion : Option Nat := none
  publish : Bool := false
  skipValidation : Bool := false
  skipSanitization : Bool := false
deriving DecidableEq, Repr

/-- What an invocation of a service method does at its boundary: either a
synchronous throw (from `ensurePermission`) or a returned result. -/
inductive ServiceOutcome where
  | thrown (msg : String)
  | returned (r : OperationResult SaveData)
deriving DecidableEq, Repr

/-- The mutable state a `ContentService.saveContent` call touches. -/
structure ServiceState where
  vm : VMState
  audit : List AuditLogEntry
  regexState : List Nat
deriving DecidableEq, Repr

/-- Intermediate output of the service body before the audit append. -/
structure CoreOut where
  outcome : ServiceOutcome
  vm : VMState
  regexState : List Nat
  logEntry : Option AuditLogInput
deriving DecidableEq, Repr

namespace ContentService

/-- `ContentService.checkPermission`: inactive users always fail, otherwise
the role table decides. -/
def checkPermission (u : AdminUser) (p : String) : Bool :=
  u.isActive && hasPermission u.role p

/-- The `SaveContentOptions` object the service builds for the version
manager call. -/
def toVmOpts (o : SaveSvcOpts) : SaveOpts :=
  { userId := o.user.id
    userEmail := o.user.email
    changeDescription := o.changeDescription
    expectedVersion := o.expectedVersion
    publish := o.publish }

/-- The `logContentUpdate` input the service assembles for a successful
save (`previousContent || {}` is the JS truthiness fallback). -/
def updateLogInput (contentType docPath : String) (o : SaveSvcOpts)
    (prev : Option Content) (newContent : Content) : AuditLogInput :=
  { action := "content_update"
    userId := o.user.id
    userEmail := o.user.email
    userRole := o.user.role
    resourceType := some contentType
    resourceId := some docPath
    resourcePath := some docPath
    previousValue := some (prev.getD [])
    newValue := some newContent
    success := true }

/-- Regex state after the validation step: for a content type absent from
`ContentTypeRegistry`, `validateContent` runs with no required fields, so
it always passes — but its dangerous-content scan over the serialized
content advances the shared regex states. -/
def validatedRegexState (st : ServiceState) (content : Content) (o : SaveSvcOpts) : List Nat :=
  if o.skipValidation then st.regexState
  else (containsDangerousContentS st.regexState (jsonStringify content)).2

/-- The sanitized content together with the regex state after the
sanitization step. -/
def sanitizedPair (st : ServiceState) (content : Content) (o : SaveSvcOpts) :
    Content × List Nat :=
  if o.skipSanitization then (content, validatedRegexState st content o)
  else sanitizeObjectS (validatedRegexState st content o) content

/-- The post-sanitization dangerous re-check result and the regex state it
leaves behind (skipped entirely with `skipSanitization`). -/
def dangerPair (st : ServiceState) (content : Content) (o : SaveSvcOpts) : Bool × List Nat :=
  if o.skipSanitization then (false, (sanitizedPair st content o).2)
  else containsDangerousContentS (sanitizedPair st content o).2
    (jsonStringify (sanitizedPair st content o).1)

/-- The versioned write followed by the audit-input construction: the
audit input is produced exactly when the write reports success with its
data payload (`result.success && result.data`). -/
def writeAndDescribe (vm : VMState) (contentType docPath : String)
    (prev : Option Content) (sanitized : Content) (rs : List Nat)
    (o : SaveSvcOpts) (now : Nat) (uuid : String) : CoreOut :=
  { outcome := ServiceOutcome.returned
      (VersionManager.saveContent vm sanitized (toVmOpts o) now uuid).1
    vm := (VersionManager.saveContent vm sanitized (toVmOpts o) now uuid).2
    regexState := rs
    logEntry :=
      if (VersionManager.saveContent vm sanitized (toVmOpts o) now uuid).1.success &&
         (VersionManager.saveContent vm sanitized (toVmOpts o) now uuid).1.data.isSome then
        some (updateLogInput contentType docPath o prev sanitized)
      else none }

/-- The dangerous-content gate in front of the versioned write: a tripped
re-check rejects with `DANGEROUS_CONTENT` (and no audit input). -/
def saveGuarded (vm : VMState) (contentType docPath : String)
    (prev : Option Content) (sanitized : Content) (danger : Bool) (rs : List Nat)
    (o : SaveSvcOpts) (now : Nat) (uuid : String) : CoreOut :=
  if danger then
    { outcome := ServiceOutcome.returned
        { success := false
          error := some ("Content contains potentially dangerous patterns")
          errorCode := some ("DANGEROUS_CONTENT") }
      vm := vm, regexState := rs, logEntry := none }
  else writeAndDescribe vm contentType docPath prev sanitized rs o now uuid

/-- The body of `ContentService.saveContent` up to (but excluding) the
audit append: permission checks (which throw), generic validation,
sanitization, the post-sanitization dangerous re-check, and the versioned
write. -/
def saveCore (st : ServiceState) (contentType docPath : String)
    (content : Content) (o : SaveSvcOpts) (now : Nat) (uuid : String) : CoreOut :=
  if !checkPermission o.user ("content:update") then
    { outcome := ServiceOutcome.thrown ("Insufficient permissions: content:update required")
      vm := st.vm, regexState := st.regexState, logEntry := none }
  else if o.publish && !checkPermission o.user ("content:publish") then
    { outcome := ServiceOutcome.thrown ("Insufficient permissions: content:publish required")
      vm := st.vm, regexState := st.regexState, logEntry := none }
  else
    saveGuarded st.vm contentType docPath (st.vm.live.map (fun d => d.content))
      (sanitizedPair st content o).1 (dangerPair st content o).1
      (dangerPair st content o).2 o now uuid

/-- `ContentService.saveContent`: run the body and, when it produced an
audit input, append it through `AuditLogger.log` (whose failures are
swallowed). -/
def saveContent (auditFails : Bool) (st : ServiceState) (contentType docPath : String)
    (content : Content) (o : SaveSvcOpts) (now : Nat) (uuid auditUuid : String) :
    ServiceOutcome × ServiceState :=
  let c := saveCore st contentType docPath content o now uuid
  let audit2 :=
    match c.logEntry with
    | some e => (AuditLogger.log auditFails now auditUuid st.audit e).2
    | none => st.audit
  (c.outcome, { vm := c.vm, audit := audit2, regexState := c.regexState })

end ContentService

/-! ### Substring helper used for stating sanitizer properties -/

/-- Exact prefix test on character lists. -/
def prefixCheck : List Char → List Char → Bool
  | [], _ => true
  | _ :: _, [] => false
  | p :: ps, c :: cs => p = c && prefixCheck ps cs

/-- Exact substring occurrence on character lists. -/
def hasSubstr (pat : List Char) : List Char → Bool
  | [] => prefixCheck pat []
  | c :: rest => prefixCheck pat (c :: rest) || hasSubstr pat rest

/-! ### Helper lemmas on the version manager -/

/-- A successful `saveContent` is exactly the committed branch: the
optimistic-lock condition did not fire. -/
theorem saveContent_success_eq (st : VMState) (content : Content) (o : SaveOpts)
    (now : Nat) (uuid : String)
    (h : (VersionManager.saveContent st content o now uuid).1.success = true) :
    VersionManager.saveContent st content o now uuid =
      VersionManager.saveCommit st content o now uuid := by
  by_cases hc : (o.expectedVersion.any (fun e => e ≠ liveVersion st)) = true
  · exfalso
    unfold VersionManager.saveContent at h
    rw [if_pos hc] at h
    simp at h
  · unfold VersionManager.saveContent
    rw [if_neg hc]

/-- The committed branch reports version `current + 1` and leaves the live
document at that version. -/
theorem saveCommit_version (st : VMState) (content : Content) (o : SaveOpts)
    (now : Nat) (uuid : String) :
    (VersionManager.saveCommit st content o now uuid).1 =
      { success := true, data := some { version := liveVersion st + 1 } } ∧
    liveVersion (VersionManager.saveCommit st content o now uuid).2 = liveVersion st + 1 :=
  ⟨rfl, rfl⟩

/-- Snapshot effect of the committed branch when a previous document
existed: exactly the pre-image row is appended, attributed to the actor
and wall-clock time of the superseding save. -/
theorem saveCommit_snapshots_some (st : VMState) (content : Content) (o : SaveOpts)
    (now : Nat) (uuid : String) (d : VersionedDoc) (hd : st.live = some d) :
    (VersionManager.saveCommit st content o now uuid).2.snapshots =
      st.snapshots ++
        [{ versionId := uuid
           version := d.meta.version
           contentSnapshot := d.content
           createdAt := now
           createdBy := o.userId
           createdByEmail := some o.userEmail
           changeDescription := o.changeDescription
           isRollback := false
           rolledBackFrom := none }] := by
  unfold VersionManager.saveCommit
  simp [hd, liveVersion]

/-- Snapshot effect of the committed branch on a fresh path: none. -/
theorem saveCommit_snapshots_none (st : VMState) (content : Content) (o : SaveOpts)
    (now : Nat) (uuid : String) (hd : st.live = none) :
    (VersionManager.saveCommit st content o now uuid).2.snapshots = st.snapshots := by
  unfold VersionManager.saveCommit
  simp [hd]

/-! ### C8 — ordered access-control checks -/

/-- C8: for every user value (including a missing one) and every required
permission, `makeAccessDecision` applies its denial checks in order — user
present, then `isActive`, then role validity, then permission membership —
returning the corresponding reason at the first failing check, and allows
only when all four pass. -/
theorem C8_makeAccessDecision_ordered (user : Option AdminUser) (p : String) :
    (user = none →
      makeAccessDecision user p =
        { allowed := false, reason := some ("User not authenticated") }) ∧
    (∀ u, user = some u → u.isActive = false →
      makeAccessDecision user p =
        { allowed := false, reason := some ("User account is deactivated") }) ∧
    (∀ u, user = some u → u.isActive = true → isValidRole u.role = false →
      makeAccessDecision user p =
        { allowed := false, reason := some ("Invalid user role") }) ∧
    (∀ u, user = some u → u.isActive = true → isValidRole u.role = true →
      hasPermission u.role p = false →
      makeAccessDecision user p =
        { allowed := false
          reason := some ("Missing required permission: " ++ p)
          requiredPermission := some p }) ∧
    (∀ u, user = some u → u.isActive = true → isValidRole u.role = true →
      hasPermission u.role p = true →
      makeAccessDecision user p = { allowed := true }) := by
  refine ⟨?_, ?_, ?_, ?_, ?_⟩ <;> intros <;> subst_vars <;>
    simp [makeAccessDecision, *]

/-- Witness for C8 at a concrete deactivated admin. -/
theorem C8_makeAccessDecision_ordered_witness :
    makeAccessDecision
        (some { id := "u1", email := "u1@x", role := "admin", isActive := false })
        ("content:update") =
      { allowed := false, reason := some ("User account is deactivated") } :=
  (C8_makeAccessDecision_ordered
      (some { id := "u1", email := "u1@x", role := "admin", isActive := false })
      ("content:update")).2.1
    { id := "u1", email := "u1@x", role := "admin", isActive := false } rfl rfl

/-! ### C9 — `sanitizeTitle` on the specification example -/

/-- The concrete input of the spec's sanitizer test. -/
def c9Input : String := "  Hello <script>alert(1)</script> World  "

/-- C9: `sanitizeTitle` on the spec's example contains no `<script`, no
`javascript:`, no newline characters, and no raw HTML metacharacters
(it is HTML-escaped); in general, the output never exceeds the
`ContentLimits.TITLE` cap of 200 characters. -/
theorem C9_sanitizeTitle_example :
    hasSubstr ("<script").data (sanitizeTitle c9Input).data = false ∧
    hasSubstr ("javascript:").data (sanitizeTitle c9Input).data = false ∧
    (sanitizeTitle c9Input).data.all (fun c => !isCRLF c) = true ∧
    (sanitizeTitle c9Input).data.all
      (fun c => !(c = '<' || c = '>' || c = '&' || c = '"' ||
                  c = Char.ofNat 39 || c = Char.ofNat 96)) = true ∧
    ∀ s : String, (sanitizeTitle s).length ≤ titleLimit := by
  refine ⟨by decide, by decide, by decide, by decide, ?_⟩
  intro s
  have hcap : ∀ l : List Char, (capLen titleLimit l).length ≤ titleLimit := by
    intro l
    unfold capLen
    split
    · simp
    · omega
  show (String.mk (sanitizeTitleL s.data)).length ≤ titleLimit
  have hlen : ∀ l : List Char, (String.mk l).length = l.length := fun _ => rfl
  rw [hlen]
  unfold sanitizeTitleL
  split
  · simp [titleLimit]
  · exact hcap _

/-! ### C10 — the dangerous-content check is stateful, not deterministic -/

/-- The failing input for the dangerous-content determinism claim. -/
def c10Input : String := "<iframe "

/-- C10 (code bug): the module-level `DANGEROUS_PATTERNS` carry the `g`
flag, and `RegExp.prototype.test` advances `lastIndex`, so two successive
calls of `containsDangerousContent` on the identical dangerous string
return `true` then `false` — the check is not a function of its input. -/
theorem C10_containsDangerousContent_stateful :
    (containsDangerousContentS initRegexState c10Input).1 = true ∧
    (containsDangerousContentS (containsDangerousContentS initRegexState c10Input).2
        c10Input).1 = false := by
  exact ⟨by decide, by decide⟩

/-! ### C1 — stale `expectedVersion` -/

/-- A document at version 2, authored by alice. -/
def c1Doc : VersionedDoc :=
  { content := [("title", "second")]
    meta := { version := 2, status := CStatus.draft, createdAt := 10, createdBy := "alice",
              updatedAt := 12, updatedBy := "alice" } }

/-- Store state for the C1 scenario. -/
def c1State : VMState := { live := some c1Doc, snapshots := [] }

/-- A save against version 2 carrying the stale `expectedVersion: 1`. -/
def c1Opts : SaveOpts := { userId := "bob", userEmail := "bob@x", expectedVersion := some 1 }

/-- C1 counterexample: the stale save fails, but its `errorCode` is not
`VERSION_CONFLICT` — the conflict is thrown as a plain `Error`, and the
catch block copies the nonexistent `error.code`, leaving `errorCode`
unset. -/
theorem C1_counterexample :
    (VersionManager.saveContent c1State [("title", "new")] c1Opts 20 "s1").1.success = false ∧
    ¬ (VersionManager.saveContent c1State [("title", "new")] c1Opts 20 "s1").1.errorCode =
        some ("VERSION_CONFLICT") := by
  exact ⟨by decide, by decide⟩

/-- C1 (amended): a save whose `expectedVersion` differs from the current
version (0 when the document does not exist) returns a failure whose error
message names both the expected and the actual version, with `errorCode`
unset, and leaves the stored document and snapshots unchanged. -/
theorem C1_version_conflict_amended (st : VMState) (content : Content) (o : SaveOpts)
    (now : Nat) (uuid : String) (e : Nat)
    (he : o.expectedVersion = some e) (hne : e ≠ liveVersion st) :
    (VersionManager.saveContent st content o now uuid).1.success = false ∧
    (VersionManager.saveContent st content o now uuid).1.errorCode = none ∧
    (VersionManager.saveContent st content o now uuid).1.error =
      some (conflictMsg e (liveVersion st)) ∧
    (VersionManager.saveContent st content o now uuid).2 = st := by
  unfold VersionManager.saveContent
  rw [he]
  simp [hne]

/-- Witness for C1 (amended) at the concrete stale save. -/
theorem C1_version_conflict_amended_witness :
    (VersionManager.saveContent c1State [("title", "new")] c1Opts 20 "s1").1.success = false ∧
    (VersionManager.saveContent c1State [("title", "new")] c1Opts 20 "s1").1.errorCode = none ∧
    (VersionManager.saveContent c1State [("title", "new")] c1Opts 20 "s1").1.error =
      some (conflictMsg 1 (liveVersion c1State)) ∧
    (VersionManager.saveContent c1State [("title", "new")] c1Opts 20 "s1").2 = c1State :=
  C1_version_conflict_amended c1State [("title", "new")] c1Opts 20 "s1" 1 rfl (by decide)

/-! ### C2 — gapless, strictly increasing versions -/

/-- One `saveContent` request (content, options, wall-clock, uuid). -/
structure SaveReq where
  content : Content
  opts : SaveOpts
  now : Nat
  uuid : String

/-- Run a sequence of `VersionManager.saveContent` calls, collecting the
results in order. -/
def runSaves : VMState → List SaveReq → VMState × List (OperationResult SaveData)
  | st, [] => (st, [])
  | st, r :: rs =>
    let p := VersionManager.saveContent st r.content r.opts r.now r.uuid
    let q := runSaves p.2 rs
    (q.1, p.1 :: q.2)

/-- The version number a save result reports. -/
def reportedVersion (r : OperationResult SaveData) : Nat :=
  match r.data with
  | some d => d.version
  | none => 0

/-- C2: every successful save reports exactly `currentVersion + 1` and
leaves the live document there (a missing document counts as version 0,
so the first successful save yields 1); consequently any sequence of
successful saves reports the gapless versions
`current+1, current+2, ...` — from a fresh path, `1, 2, 3, ...`. -/
theorem C2_versions_gapless :
    (∀ st content o now uuid,
      (VersionManager.saveContent st content o now uuid).1.success = true →
      (VersionManager.saveContent st content o now uuid).1.data =
        some { version := liveVersion st + 1 } ∧
      liveVersion (VersionManager.saveContent st content o now uuid).2 =
        liveVersion st + 1) ∧
    (∀ st reqs, (∀ r ∈ (runSaves st reqs).2, r.success = true) →
      (runSaves st reqs).2.map reportedVersion =
        List.range' (liveVersion st + 1) reqs.length) := by
  have step : ∀ st content o now uuid,
      (VersionManager.saveContent st content o now uuid).1.success = true →
      (VersionManager.saveContent st content o now uuid).1.data =
        some { version := liveVersion st + 1 } ∧
      liveVersion (VersionManager.saveContent st content o now uuid).2 =
        liveVersion st + 1 := by
    intro st content o now uuid h
    rw [saveContent_success_eq st content o now uuid h]
    exact ⟨congrArg (fun r => r.data) (saveCommit_version st content o now uuid).1,
           (saveCommit_version st content o now uuid).2⟩
  refine ⟨step, ?_⟩
  intro st reqs
  induction reqs generalizing st with
  | nil => intro _; simp [runSaves]
  | cons r rs ih =>
    intro h
    have hhead : (VersionManager.saveContent st r.content r.opts r.now r.uuid).1.success = true := by
      have := h (VersionManager.saveContent st r.content r.opts r.now r.uuid).1
      simp [runSaves] at this ⊢
      exact this
    have htail : ∀ x ∈ (runSaves (VersionManager.saveContent st r.content r.opts r.now r.uuid).2 rs).2,
        x.success = true := by
      intro x hx
      apply h
      simp [runSaves]
      exact Or.inr hx
    have hstep := step st r.content r.opts r.now r.uuid hhead
    have hrec := ih (VersionManager.saveContent st r.content r.opts r.now r.uuid).2 htail
    simp [runSaves, List.range'_succ, reportedVersion, hstep.1, hstep.2] at hrec ⊢
    exact hrec

/-- Witness for C2: the first save on a fresh path succeeds and reports
version 1, from state version 0. -/
theorem C2_versions_gapless_witness :
    (VersionManager.saveContent vmEmpty [("title", "x")]
        { userId := "u1", userEmail := "u1@x" } 5 "s1").1.data =
      some { version := liveVersion vmEmpty + 1 } ∧
    liveVersion (VersionManager.saveContent vmEmpty [("title", "x")]
        { userId := "u1", userEmail := "u1@x" } 5 "s1").2 = liveVersion vmEmpty + 1 :=
  C2_versions_gapless.1 vmEmpty [("title", "x")]
    { userId := "u1", userEmail := "u1@x" } 5 "s1" (by decide)

/-! ### C3 — exactly the versions `1..N-1` are snapshotted -/

/-- The version numbers present in the snapshot collection. -/
def snapVersions (st : VMState) : List Nat := st.snapshots.map (fun s => s.version)

/-- The snapshot invariant: the live document (when present) is at version
at least 1, and the snapshot collection holds exactly one entry for each
version `1..N-1` where `N` is the live version (none for `N` itself). -/
def SnapInv (st : VMState) : Prop :=
  (st.live = none ∨ 1 ≤ liveVersion st) ∧
  List.Perm (snapVersions st) (List.range' 1 (liveVersion st - 1))

/-- First save of the end-to-end example: fresh path, admin u1. -/
def c3Content1 : Content := [("title", "Chariotek")]

/-- Second content of the end-to-end example. -/
def c3Content2 : Content := [("title", "Chariotek v2")]

/-- Options of the first save. -/
def c3Opts1 : SaveOpts := { userId := "u1", userEmail := "u1@x" }

/-- Options of the second save (`expectedVersion: 1`). -/
def c3Opts2 : SaveOpts := { userId := "u1", userEmail := "u1@x", expectedVersion := some 1 }

/-- State after the first save. -/
def c3State1 : VMState := (VersionManager.saveContent vmEmpty c3Content1 c3Opts1 10 "s1").2

/-- State after the second save. -/
def c3State2 : VMState := (VersionManager.saveContent c3State1 c3Content2 c3Opts2 20 "s2").2

/-- C3: every successful save preserves the snapshot invariant (one
snapshot per version `1..N-1`, none for the live version `N`), and on the
concrete fresh-path scenario the first save (to version 1) creates no
snapshot while the second save (to version 2) creates exactly one snapshot
for version 1 holding the pre-image content. -/
theorem C3_snapshot_history_invariant :
    (∀ st content o now uuid, SnapInv st →
      (VersionManager.saveContent st content o now uuid).1.success = true →
      SnapInv (VersionManager.saveContent st content o now uuid).2) ∧
    (VersionManager.saveContent vmEmpty c3Content1 c3Opts1 10 "s1").1.data =
      some { version := 1 } ∧
    c3State1.snapshots = [] ∧
    (VersionManager.saveContent c3State1 c3Content2 c3Opts2 20 "s2").1.data =
      some { version := 2 } ∧
    c3State2.snapshots.map (fun s => (s.version, s.contentSnapshot)) = [(1, c3Content1)] := by
  refine ⟨?_, by decide, by decide, by decide, by decide⟩
  intro st content o now uuid hinv hsucc
  rw [saveContent_success_eq st content o now uuid hsucc]
  rcases hinv with ⟨hver, hperm⟩
  have hv := (saveCommit_version st content o now uuid).2
  refine ⟨Or.inr (by rw [hv]; omega), ?_⟩
  cases hl : st.live with
  | none =>
    have hs := saveCommit_snapshots_none st content o now uuid hl
    have hz : liveVersion st = 0 := by simp [liveVersion, hl]
    have : snapVersions (VersionManager.saveCommit st content o now uuid).2 = snapVersions st := by
      unfold snapVersions
      rw [hs]
    rw [this, hv, hz]
    simpa [hz] using hperm
  | some d =>
    have hs := saveCommit_snapshots_some st content o now uuid d hl
    have hN : liveVersion st = d.meta.version := by simp [liveVersion, hl]
    have hge : 1 ≤ d.meta.version := by
      rcases hver with h0 | h1
      · rw [hl] at h0; cases h0
      · rw [hN] at h1; exact h1
    have hmap : snapVersions (VersionManager.saveCommit st content o now uuid).2 =
        snapVersions st ++ [d.meta.version] := by
      unfold snapVersions
      rw [hs]
      simp
    rw [hmap, hv, hN]
    have happ := List.Perm.append_right [d.meta.version] hperm
    have h1 : d.meta.version - 1 + 1 = d.meta.version := by omega
    have h2 : 1 + (d.meta.version - 1) = d.meta.version := by omega
    have hr : List.range' 1 (d.meta.version - 1) ++ [d.meta.version] =
        List.range' 1 (d.meta.version + 1 - 1) := by
      rw [show d.meta.version + 1 - 1 = d.meta.version from rfl, ← h1,
          List.range'_1_concat, h1, h2]
    rw [hN] at happ
    exact hr ▸ happ

/-- Witness for C3: the invariant-preservation component applied at the
concrete state after the first save. -/
theorem C3_snapshot_history_invariant_witness :
    SnapInv (VersionManager.saveContent c3State1 c3Content2 c3Opts2 20 "s2").2 :=
  C3_snapshot_history_invariant.1 c3State1 c3Content2 c3Opts2 20 "s2"
    (by constructor
        · decide
        · decide)
    (by decide)

/-! ### C4 — snapshot attribution -/

/-- A version-1 document authored by alice at time 10. -/
def c4Doc : VersionedDoc :=
  { content := [("title", "original")]
    meta := { version := 1, status := CStatus.draft, createdAt := 10, createdBy := "alice",
              updatedAt := 10, updatedBy := "alice" } }

/-- Store state for the C4 scenario. -/
def c4State : VMState := { live := some c4Doc, snapshots := [] }

/-- A superseding save by bob at time 20. -/
def c4Opts : SaveOpts := { userId := "bob", userEmail := "bob@x" }

/-- C4 counterexample: when bob supersedes alice's version 1 at time 20,
the snapshot persisted for version 1 carries `createdBy = "bob"` and
`createdAt = 20` — the actor and time of the superseding save — although
the superseded version was authored by alice at time 10. -/
theorem C4_counterexample :
    (VersionManager.saveContent c4State [("title", "changed")] c4Opts 20 "s1").2.snapshots.map
        (fun s => (s.version, s.createdBy, s.createdAt)) = [(1, "bob", 20)] ∧
    c4Doc.meta.createdBy = "alice" ∧
    c4Doc.meta.createdAt = 10 ∧
    ("bob" : String) ≠ "alice" ∧
    (20 : Nat) ≠ 10 := by
  exact ⟨by decide, by decide, by decide, by decide, by decide⟩

/-- C4 (amended): for every successful save superseding an existing
document, the persisted snapshot of the superseded version is attributed
to the actor of the superseding save — `createdBy`/`createdByEmail` are
the saving user and `createdAt` is the save's wall-clock time — not to
the original author of that version. -/
theorem C4_snapshot_attribution_amended (st : VMState) (d : VersionedDoc)
    (content : Content) (o : SaveOpts) (now : Nat) (uuid : String)
    (hd : st.live = some d)
    (h : (VersionManager.saveContent st content o now uuid).1.success = true) :
    (VersionManager.saveContent st content o now uuid).2.snapshots =
      st.snapshots ++
        [{ versionId := uuid
           version := d.meta.version
           contentSnapshot := d.content
           createdAt := now
           createdBy := o.userId
           createdByEmail := some o.userEmail
           changeDescription := o.changeDescription
           isRollback := false
           rolledBackFrom := none }] := by
  rw [saveContent_success_eq st content o now uuid h]
  exact saveCommit_snapshots_some st content o now uuid d hd

/-- Witness for C4 (amended) at the concrete alice/bob scenario. -/
theorem C4_snapshot_attribution_amended_witness :
    (VersionManager.saveContent c4State [("title", "changed")] c4Opts 20 "s1").2.snapshots =
      c4State.snapshots ++
        [{ versionId := "s1"
           version := c4Doc.meta.version
           contentSnapshot := c4Doc.content
           createdAt := 20
           createdBy := c4Opts.userId
           createdByEmail := some c4Opts.userEmail
           changeDescription := c4Opts.changeDescription
           isRollback := false
           rolledBackFrom := none }] :=
  C4_snapshot_attribution_amended c4State c4Doc [("title", "changed")] c4Opts 20 "s1"
    rfl (by decide)

/-! ### C5 — rollback semantics -/

/-- C5: when the live document is at version `c` and a snapshot exists for
the target version `v`, `rollbackToVersion` succeeds with
`{version: c+1, restoredVersion: v}`, the new live content equals the
snapshot's content, `_meta` keeps every field except `version`,
`updatedAt` and `updatedBy`, and a new snapshot for version `c` is
appended flagged `isRollback = true` with `rolledBackFrom = v`. -/
theorem C5_rollback_semantics (st : VMState) (audit : List AuditLogEntry)
    (auditFails : Bool) (contentType docPath : String)
    (o : VersionManager.RollbackOpts) (userRole : String) (now : Nat)
    (uuid auditUuid : String) (d : VersionedDoc) (target : ContentVersion)
    (hd : st.live = some d)
    (ht : VersionManager.getVersion st.snapshots o.targetVersion = some target) :
    (VersionManager.rollbackToVersion st audit auditFails contentType docPath o
        userRole now uuid auditUuid).1 =
      { success := true
        data := some { version := d.meta.version + 1, restoredVersion := o.targetVersion } } ∧
    (VersionManager.rollbackToVersion st audit auditFails contentType docPath o
        userRole now uuid auditUuid).2.1.live =
      some { content := target.contentSnapshot
             meta := { d.meta with
                       version := d.meta.version + 1
                       updatedAt := now
                       updatedBy := o.userId } } ∧
    (VersionManager.rollbackToVersion st audit auditFails contentType docPath o
        userRole now uuid auditUuid).2.1.snapshots =
      st.snapshots ++
        [{ versionId := uuid
           version := d.meta.version
           contentSnapshot := d.content
           createdAt := now
           createdBy := o.userId
           createdByEmail := some o.userEmail
           changeDescription := some ("Rollback to version " ++ toString o.targetVersion)
           isRollback := true
           rolledBackFrom := some o.targetVersion }] := by
  unfold VersionManager.rollbackToVersion
  rw [ht, hd]
  exact ⟨rfl, rfl, rfl⟩

/-- The stored snapshot of version 1 in the C5 scenario. -/
def c5Snapshot : ContentVersion :=
  { versionId := "s1", version := 1, contentSnapshot := [("title", "one")],
    createdAt := 10, createdBy := "u1", createdByEmail := some ("u1@x") }

/-- The live version-2 document of the C5 scenario. -/
def c5Doc : VersionedDoc :=
  { content := [("title", "two")]
    meta := { version := 2, status := CStatus.published, createdAt := 10, createdBy := "u1",
              updatedAt := 15, updatedBy := "u1", publishedAt := some 15,
              publishedBy := some ("u1") } }

/-- Store state for the C5 scenario. -/
def c5State : VMState := { live := some c5Doc, snapshots := [c5Snapshot] }

/-- Rollback request: restore version 1, by u2. -/
def c5Opts : VersionManager.RollbackOpts :=
  { userId := "u2", userEmail := "u2@x", targetVersion := 1 }

/-- Witness for C5 at the concrete version-2 document with a version-1
snapshot. -/
theorem C5_rollback_semantics_witness :
    (VersionManager.rollbackToVersion c5State [] false ("generic") ("p") c5Opts
        ("admin") 30 "s2" "a1").1 =
      { success := true
        data := some { version := c5Doc.meta.version + 1, restoredVersion := c5Opts.targetVersion } } ∧
    (VersionManager.rollbackToVersion c5State [] false ("generic") ("p") c5Opts
        ("admin") 30 "s2" "a1").2.1.live =
      some { content := c5Snapshot.contentSnapshot
             meta := { c5Doc.meta with
                       version := c5Doc.meta.version + 1
                       updatedAt := 30
                       updatedBy := c5Opts.userId } } ∧
    (VersionManager.rollbackToVersion c5State [] false ("generic") ("p") c5Opts
        ("admin") 30 "s2" "a1").2.1.snapshots =
      c5State.snapshots ++
        [{ versionId := "s2"
           version := c5Doc.meta.version
           contentSnapshot := c5Doc.content
           createdAt := 30
           createdBy := c5Opts.userId
           createdByEmail := some c5Opts.userEmail
           changeDescription := some ("Rollback to version " ++ toString c5Opts.targetVersion)
           isRollback := true
           rolledBackFrom := some c5Opts.targetVersion }] :=
  C5_rollback_semantics c5State [] false ("generic") ("p") c5Opts ("admin") 30 "s2" "a1"
    c5Doc c5Snapshot rfl rfl

/-! ### C6 — when the service audits -/

/-- A successful `saveContent` always carries its data payload. -/
theorem saveContent_success_data (st : VMState) (content : Content) (o : SaveOpts)
    (now : Nat) (uuid : String)
    (h : (VersionManager.saveContent st content o now uuid).1.success = true) :
    (VersionManager.saveContent st content o now uuid).1.data =
      some { version := liveVersion st + 1 } := by
  rw [saveContent_success_eq st content o now uuid h]
  exact congrArg (fun r => r.data) (saveCommit_version st content o now uuid).1

/-- An admin user whose account is deactivated. -/
def c6Inactive : AdminUser := { id := "a2", email := "a2@x", role := "admin", isActive := false }

/-- An active admin user. -/
def c6Admin : AdminUser := { id := "a1", email := "a1@x", role := "admin", isActive := true }

/-- Fresh service state for the C6 scenarios. -/
def c6State : ServiceState := { vm := vmEmpty, audit := [], regexState := initRegexState }

/-- C6 counterexample: an attempted save that fails the permission check
throws synchronously and produces no audit entry at all — not the
exactly-one entry per attempt the claim requires. -/
theorem C6_counterexample :
    (ContentService.saveContent false c6State ("generic") ("p") [("title", "x")]
        { user := c6Inactive } 10 "s1" "a1").1 =
      ServiceOutcome.thrown ("Insufficient permissions: content:update required") ∧
    (ContentService.saveContent false c6State ("generic") ("p") [("title", "x")]
        { user := c6Inactive } 10 "s1" "a1").2.audit = c6State.audit := by
  exact ⟨by decide, by decide⟩

/-- Characterization of `writeAndDescribe`: its outcome is the version
manager's result, and it emits the audit input exactly on success. -/
theorem writeAndDescribe_spec (vm : VMState) (ct dp : String) (prev : Option Content)
    (sanitized : Content) (rs : List Nat) (o : SaveSvcOpts) (now : Nat) (uuid : String) :
    (ContentService.writeAndDescribe vm ct dp prev sanitized rs o now uuid).outcome =
      ServiceOutcome.returned
        (VersionManager.saveContent vm sanitized (ContentService.toVmOpts o) now uuid).1 ∧
    ((VersionManager.saveContent vm sanitized (ContentService.toVmOpts o) now uuid).1.success = true →
      (ContentService.writeAndDescribe vm ct dp prev sanitized rs o now uuid).logEntry =
        some (ContentService.updateLogInput ct dp o prev sanitized)) ∧
    ((VersionManager.saveContent vm sanitized (ContentService.toVmOpts o) now uuid).1.success = false →
      (ContentService.writeAndDescribe vm ct dp prev sanitized rs o now uuid).logEntry = none) := by
  refine ⟨rfl, ?_, ?_⟩
  · intro hs
    unfold ContentService.writeAndDescribe
    simp only [hs, saveContent_success_data _ _ _ _ _ hs, Option.isSome_some,
      Bool.and_self, if_pos]
  · intro hs
    unfold ContentService.writeAndDescribe
    simp only [hs, Bool.false_and, Bool.false_eq_true, if_false]

/-- Case analysis of the service body: it throws without an audit input,
returns a failure without an audit input, or returns a success together
with a `content_update` success audit input. -/
theorem saveCore_spec (st : ServiceState) (ct dp : String) (content : Content)
    (o : SaveSvcOpts) (now : Nat) (uuid : String) :
    (∃ msg, (ContentService.saveCore st ct dp content o now uuid).outcome =
        ServiceOutcome.thrown msg ∧
      (ContentService.saveCore st ct dp content o now uuid).logEntry = none) ∨
    (∃ res, (ContentService.saveCore st ct dp content o now uuid).outcome =
        ServiceOutcome.returned res ∧ res.success = false ∧
      (ContentService.saveCore st ct dp content o now uuid).logEntry = none) ∨
    (∃ res e, (ContentService.saveCore st ct dp content o now uuid).outcome =
        ServiceOutcome.returned res ∧ res.success = true ∧
      (ContentService.saveCore st ct dp content o now uuid).logEntry = some e ∧
      e.action = "content_update" ∧ e.success = true) := by
  unfold ContentService.saveCore
  by_cases h1 : (!ContentService.checkPermission o.user ("content:update")) = true
  · rw [if_pos h1]
    exact Or.inl ⟨_, rfl, rfl⟩
  · rw [if_neg h1]
    by_cases h2 : (o.publish && !ContentService.checkPermission o.user ("content:publish")) = true
    · rw [if_pos h2]
      exact Or.inl ⟨_, rfl, rfl⟩
    · rw [if_neg h2]
      refine Or.inr ?_
      unfold ContentService.saveGuarded
      by_cases h3 : (ContentService.dangerPair st content o).1 = true
      · rw [if_pos h3]
        exact Or.inl ⟨_, rfl, rfl, rfl⟩
      · rw [if_neg h3]
        have hw := writeAndDescribe_spec st.vm ct dp (st.vm.live.map (fun d => d.content))
          (ContentService.sanitizedPair st content o).1 (ContentService.dangerPair st content o).2 o now uuid
        by_cases hs : (VersionManager.saveContent st.vm (ContentService.sanitizedPair st content o).1
            (ContentService.toVmOpts o) now uuid).1.success = true
        · exact Or.inr ⟨_, _, hw.1, hs, hw.2.1 hs, rfl, rfl⟩
        · have hf : (VersionManager.saveContent st.vm (ContentService.sanitizedPair st content o).1
              (ContentService.toVmOpts o) now uuid).1.success = false := by
            revert hs
            cases (VersionManager.saveContent st.vm (ContentService.sanitizedPair st content o).1
              (ContentService.toVmOpts o) now uuid).1.success
            · intro _; rfl
            · intro hs; exact absurd rfl hs
          exact Or.inl ⟨_, hw.1, hf, hw.2.2 hf⟩

/-- The service wrapper's outcome is the body's outcome. -/
theorem serviceSave_outcome (auditFails : Bool) (st : ServiceState) (ct dp : String)
    (content : Content) (o : SaveSvcOpts) (now : Nat) (uuid auditUuid : String) :
    (ContentService.saveContent auditFails st ct dp content o now uuid auditUuid).1 =
      (ContentService.saveCore st ct dp content o now uuid).outcome := rfl

/-- The service wrapper's audit effect is the body's audit input, appended
through `AuditLogger.log`. -/
theorem serviceSave_audit (auditFails : Bool) (st : ServiceState) (ct dp : String)
    (content : Content) (o : SaveSvcOpts) (now : Nat) (uuid auditUuid : String) :
    (ContentService.saveContent auditFails st ct dp content o now uuid auditUuid).2.audit =
      (match (ContentService.saveCore st ct dp content o now uuid).logEntry with
       | some e => (AuditLogger.log auditFails now auditUuid st.audit e).2
       | none => st.audit) := rfl

/-- C6 (amended): an invocation of the Content Service `saveContent`
produces an audit entry exactly when the versioned write succeeds (one
`content_update` success entry, given an available audit store); failures
at the permission check (thrown), at validation, at the dangerous-content
re-check, or inside the versioned write produce no audit entry. -/
theorem C6_audit_exactly_on_success (st : ServiceState) (contentType docPath : String)
    (content : Content) (o : SaveSvcOpts) (now : Nat) (uuid auditUuid : String) :
    (∀ msg,
      (ContentService.saveContent false st contentType docPath content o now uuid auditUuid).1 =
        ServiceOutcome.thrown msg →
      (ContentService.saveContent false st contentType docPath content o now uuid auditUuid).2.audit =
        st.audit) ∧
    (∀ res,
      (ContentService.saveContent false st contentType docPath content o now uuid auditUuid).1 =
        ServiceOutcome.returned res →
      res.success = false →
      (ContentService.saveContent false st contentType docPath content o now uuid auditUuid).2.audit =
        st.audit) ∧
    (∀ res,
      (ContentService.saveContent false st contentType docPath content o now uuid auditUuid).1 =
        ServiceOutcome.returned res →
      res.success = true →
      ∃ e : AuditLogInput, e.action = "content_update" ∧ e.success = true ∧
        (ContentService.saveContent false st contentType docPath content o now uuid auditUuid).2.audit =
          st.audit ++ [mkAuditLogEntry auditUuid now e]) := by
  have hout := serviceSave_outcome false st contentType docPath content o now uuid auditUuid
  have haud := serviceSave_audit false st contentType docPath content o now uuid auditUuid
  rcases saveCore_spec st contentType docPath content o now uuid with
    ⟨msg0, ho, hl⟩ | ⟨res0, ho, hf, hl⟩ | ⟨res0, e0, ho, hsucc, hl, hact, hes⟩
  · refine ⟨fun msg _ => ?_, fun res h _ => ?_, fun res h _ => ?_⟩
    · rw [haud, hl]
    · rw [hout, ho] at h
      cases h
    · rw [hout, ho] at h
      cases h
  · refine ⟨fun msg h => ?_, fun res h _ => ?_, fun res h hs => ?_⟩
    · rw [hout, ho] at h
      cases h
    · rw [haud, hl]
    · rw [hout, ho] at h
      cases h
      rw [hf] at hs
      cases hs
  · refine ⟨fun msg h => ?_, fun res h hfl => ?_, fun res h _ => ?_⟩
    · rw [hout, ho] at h
      cases h
    · rw [hout, ho] at h
      cases h
      rw [hsucc] at hfl
      cases hfl
    · refine ⟨e0, hact, hes, ?_⟩
      rw [haud, hl]
      simp [AuditLogger.log, AuditLogger.addDocAudit]

/-- Witness for C6 (amended): the success component at a concrete
successful save appends exactly one success entry. -/
theorem C6_audit_exactly_on_success_witness :
    ∃ e : AuditLogInput, e.action = "content_update" ∧ e.success = true ∧
      (ContentService.saveContent false c6State ("generic") ("p") [("title", "x")]
          { user := c6Admin } 10 "s1" "a1").2.audit =
        c6State.audit ++ [mkAuditLogEntry ("a1") 10 e] :=
  (C6_audit_exactly_on_success c6State ("generic") ("p") [("title", "x")]
      { user := c6Admin } 10 "s1" "a1").2.2
    { success := true, data := some { version := 1 } } (by decide) rfl

/-! ### C7 — audit-log failures are swallowed -/

/-- An active admin for the C7 scenario. -/
def c7Admin : AdminUser := { id := "c7", email := "c7@x", role := "admin", isActive := true }

/-- Fresh service state for the C7 scenario. -/
def c7State : ServiceState := { vm := vmEmpty, audit := [], regexState := initRegexState }

/-- C7: the underlying audit append throws when the store is unavailable,
yet `AuditLogger.log` returns normally (empty id, log unchanged) instead
of raising; consequently the outcome of the service `saveContent` never
depends on audit availability, and a concrete successful content write
with a failing audit append still reports success. -/
theorem C7_audit_log_never_raises :
    (∀ logs e, AuditLogger.addDocAudit true logs e =
      Except.error ("Audit store unavailable")) ∧
    (∀ now uuid logs i, AuditLogger.log true now uuid logs i = ("", logs)) ∧
    (∀ st contentType docPath content o now uuid auditUuid,
      (ContentService.saveContent true st contentType docPath content o now uuid auditUuid).1 =
      (ContentService.saveContent false st contentType docPath content o now uuid auditUuid).1) ∧
    (ContentService.saveContent true c7State ("generic") ("p") [("title", "x")]
        { user := c7Admin } 10 "s1" "a1").1 =
      ServiceOutcome.returned { success := true, data := some { version := 1 } } ∧
    (ContentService.saveContent true c7State ("generic") ("p") [("title", "x")]
        { user := c7Admin } 10 "s1" "a1").2.audit = [] := by
  refine ⟨fun _ _ => rfl, fun _ _ _ _ => rfl,
    fun _ _ _ _ _ _ _ _ => rfl, by decide, by decide⟩

end ChariotekCms
